import Mathlib

/-!
Shallow embedding of the gotodo task tracker (src/main.go, together with the
variant creation path found in the unnamed source part of the repository).

Go values of type time.Time are modelled as integers counting seconds since the
Go zero time (midnight UTC, January 1 of year 1, proleptic Gregorian); the Go
zero value time.Time given by an empty literal is the integer 0.  All the clock
reads performed by an operation are modelled by one explicit parameter now.
-/

namespace GoTodo

/-- time.Time.Round(24 * time.Hour): round to the nearest multiple of 24 hours
counted from the zero time, halfway values rounding up.  (Every time the
program handles is nonnegative, where this formula agrees with the Go one.) -/
def round24h (t : Int) : Int :=
  if 2 * (t % 86400) < 86400 then t - t % 86400 else t - t % 86400 + 86400

/-- The calendar day a time falls on: whole days since the zero time. -/
def dayOfTime (t : Int) : Int := t / 86400

/-- struct Todo of src/main.go. -/
structure Todo where
  Priority : Int
  Deadline : Int
  AddedAt : Int
  DoneAt : Int
  Done : Bool
  Summary : String
  Details : String
deriving DecidableEq, Repr

/-- struct TodoPatch of src/main.go (one optional update per field). -/
structure TodoPatch where
  Done : Option Bool
  Summary : Option String
  Details : Option String
  Priority : Option Int
  Deadline : Option Int
deriving DecidableEq, Repr

/-- src/main.go isValidPriority. -/
def isValidPriority (p : Int) : Bool :=
  decide (1 ≤ p) && decide (p ≤ 5)

/-- src/main.go isValidDeadline: t.Compare(now.Round(24h)) >= 0, with the
ambient clock read time.Now() made an explicit parameter. -/
def isValidDeadline (now t : Int) : Bool :=
  decide (round24h now ≤ t)

/-- Numeric value of a decimal digit character. -/
def digitVal (c : Char) : Nat := c.toNat - 48

/-- A nonempty run of decimal digits, read as a natural number. -/
def digitsToNat (cs : List Char) : Option Nat :=
  match cs with
  | [] => none
  | l => if l.all Char.isDigit then some (l.foldl (fun n c => 10 * n + digitVal c) 0) else none

/-- Decimal integer syntax accepted by strconv.ParseInt with base 10: an
optional single sign followed by at least one digit. -/
def parseIntStr (s : String) : Option Int :=
  match s.toList with
  | '+' :: rest => (digitsToNat rest).map (fun n => (n : Int))
  | '-' :: rest => (digitsToNat rest).map (fun n => -(n : Int))
  | l => (digitsToNat l).map (fun n => (n : Int))

/-- src/main.go stringToPriority: empty text is no value and no error;
otherwise strconv.ParseInt(s, 10, 8), whose syntax and signed 8 bit range
errors are both reported as an invalid format error. -/
def stringToPriority (s : String) : Except String (Option Int) :=
  if s = "" then .ok none
  else
    match parseIntStr s with
    | none => .error "invalid priority format"
    | some p =>
      if p < -128 ∨ 127 < p then .error "invalid priority format"
      else .ok (some p)

/-- Proleptic Gregorian leap year rule, as used by the Go time package. -/
def isLeapYear (y : Nat) : Bool :=
  y % 4 == 0 && (y % 100 != 0 || y % 400 == 0)

/-- Number of days of month m (1..12) of year y. -/
def daysInMonth (y m : Nat) : Nat :=
  if m = 2 then (if isLeapYear y then 29 else 28)
  else if m = 4 ∨ m = 6 ∨ m = 9 ∨ m = 11 then 30
  else 31

/-- Days of year y strictly before month m (1..12). -/
def daysBeforeMonth (y m : Nat) : Nat :=
  (match m with
   | 1 => 0 | 2 => 31 | 3 => 59 | 4 => 90 | 5 => 120 | 6 => 151
   | 7 => 181 | 8 => 212 | 9 => 243 | 10 => 273 | 11 => 304 | _ => 334)
  + (if 2 < m ∧ isLeapYear y = true then 1 else 0)

/-- Leap years among the years 1..n. -/
def leapsUpTo (n : Nat) : Nat := n / 4 - n / 100 + n / 400

/-- Days from the zero date (year 1, January 1) to day d of month m of year y;
year 0, the only representable year before the zero date, is a 366 day year. -/
def daysSinceYear1 (y m d : Nat) : Int :=
  (if y = 0 then (-366 : Int) else 365 * ((y : Int) - 1) + (leapsUpTo (y - 1) : Int))
  + (daysBeforeMonth y m : Int) + (d : Int) - 1

/-- time.Parse with layout 2006-01-02: exactly a 4 digit year, a dash, a
2 digit month, a dash and a 2 digit day, with the month in 1..12 and the day in
range for that month; the result is midnight of that date, in seconds since the
zero time. -/
def parseDate (s : String) : Option Int :=
  match s.toList with
  | [y1, y2, y3, y4, '-', m1, m2, '-', d1, d2] =>
    if (y1.isDigit && y2.isDigit && y3.isDigit && y4.isDigit &&
        m1.isDigit && m2.isDigit && d1.isDigit && d2.isDigit) then
      let y := 1000 * digitVal y1 + 100 * digitVal y2 + 10 * digitVal y3 + digitVal y4
      let m := 10 * digitVal m1 + digitVal m2
      let d := 10 * digitVal d1 + digitVal d2
      if 1 ≤ m ∧ m ≤ 12 ∧ 1 ≤ d ∧ d ≤ daysInMonth y m then
        some (86400 * daysSinceYear1 y m d)
      else none
    else none
  | _ => none

/-- src/main.go stringToDeadline: empty text is no value and no error;
otherwise parse the fixed date layout, reporting failures as format errors. -/
def stringToDeadline (s : String) : Except String (Option Int) :=
  if s = "" then .ok none
  else
    match parseDate s with
    | none => .error "invalid deadline format, expected 2006-01-02"
    | some t => .ok (some t)

/-- The white space set of the Go unicode.IsSpace predicate (latin-1 part). -/
def isSpaceGo (c : Char) : Bool :=
  decide (c = ' ' ∨ c = '\t' ∨ c = '\n' ∨ c = '\x0b' ∨ c = '\x0c' ∨ c = '\r' ∨
    c = '\u0085' ∨ c = '\u00A0')

/-- strings.TrimSpace: drop white space from both ends of the text. -/
def trimSpace (s : String) : String :=
  String.mk (((s.data.dropWhile isSpaceGo).reverse.dropWhile isSpaceGo).reverse)

/-- The comparator passed to sort.Slice in src/main.go sortTodos. -/
def lessTodo (a b : Todo) : Bool :=
  if a.Done ≠ b.Done then !a.Done && b.Done
  else if a.Done && b.Done then decide (a.DoneAt < b.DoneAt)
  else if a.Deadline ≠ b.Deadline then decide (a.Deadline < b.Deadline)
  else if a.Priority ≠ b.Priority then decide (b.Priority < a.Priority)
  else decide (a.AddedAt < b.AddedAt)

/-- src/main.go sortTodos: copy the slice and sort the copy with sort.Slice
under the comparator lessTodo.  The sort.Slice contract (a permutation of the
input, ordered so that no later element is strictly less than an earlier one)
is modelled by a sort by that comparator; the input list is not modified. -/
def sortTodos (todos : List Todo) : List Todo :=
  List.insertionSort (fun a b => lessTodo b a = false) todos

/-- The loop body of src/main.go patchTodos for one matching record: a done
request of true toggles the completion state, then the present fields are
overwritten in order. -/
def applyPatch (now : Int) (patch : TodoPatch) (t : Todo) : Todo :=
  let t1 :=
    match patch.Done with
    | some d =>
      if d then
        if !t.Done then { t with DoneAt := now, Done := true }
        else { t with Done := false, DoneAt := 0 }
      else t
    | none => t
  let t2 := match patch.Summary with | some s => { t1 with Summary := s } | none => t1
  let t3 := match patch.Details with | some d => { t2 with Details := d } | none => t2
  let t4 := match patch.Priority with | some p => { t3 with Priority := p } | none => t3
  match patch.Deadline with | some dl => { t4 with Deadline := dl } | none => t4

/-- src/main.go patchTodos: walk the whole collection, update in place every
record whose summary equals the match string, and count every such record. -/
def patchTodos (todos : List Todo) (matchSummary : String) (patch : TodoPatch)
    (now : Int) : List Todo × Nat :=
  match todos with
  | [] => ([], 0)
  | t :: ts =>
    let r := patchTodos ts matchSummary patch now
    if t.Summary = matchSummary then (applyPatch now patch t :: r.1, r.2 + 1)
    else (t :: r.1, r.2)

/-- src/main.go deleteTodos: keep the records whose summary differs from the
given one, in their original order, and count the dropped ones. -/
def deleteTodos (todos : List Todo) (summary : String) : List Todo × Nat :=
  match todos with
  | [] => ([], 0)
  | t :: ts =>
    let r := deleteTodos ts summary
    if t.Summary = summary then (r.1, r.2 + 1)
    else (t :: r.1, r.2)

/-- src/main.go addTodoOperation: validate the inputs, build the new Todo and
append it to the collection.  The returned list models the collection the
caller holds after the call; failures leave it untouched. -/
def addTodoOperation (todos : List Todo) (summary details deadlineStr priorityStr : String)
    (now : Int) : Except String (List Todo × String) :=
  if trimSpace summary = "" then .error "summary is required"
  else
    match stringToDeadline deadlineStr with
    | .error e => .error e
    | .ok od =>
      match (match od with
             | none => Except.ok (round24h now)
             | some d =>
               if isValidDeadline now d then Except.ok d
               else Except.error "deadline is before today" : Except String Int) with
      | .error e => .error e
      | .ok dl =>
        match stringToPriority priorityStr with
        | .error e => .error e
        | .ok op =>
          match (match op with
                 | none => Except.ok 1
                 | some p =>
                   if isValidPriority p then Except.ok p
                   else Except.error "priority out of range (1-5)" : Except String Int) with
          | .error e => .error e
          | .ok p =>
            .ok (todos ++ [{ Priority := p, Deadline := dl, AddedAt := now, DoneAt := 0,
                             Done := false, Summary := trimSpace summary, Details := details }],
                 "todo added")

/-- src/main.go setTodoOperation: pre-validate every supplied patch field, then
run patchTodos.  The first component of the result models the collection the
caller holds after the call. -/
def setTodoOperation (todos : List Todo) (matchSummary : String) (patch : TodoPatch)
    (now : Int) : List Todo × Except String Nat :=
  if (match patch.Priority with | some p => !isValidPriority p | none => false) then
    (todos, .error "priority out of range (1-5)")
  else if (match patch.Deadline with | some d => !isValidDeadline now d | none => false) then
    (todos, .error "deadline is before today")
  else if (match patch.Summary with | some s => decide (trimSpace s = "") | none => false) then
    (todos, .error "summary cannot be empty")
  else
    let r := patchTodos todos matchSummary patch now
    (r.1, .ok r.2)

namespace Variant

/-- parsePriority of the unnamed source variant: strconv.Atoi (64 bit range)
followed by an explicit 1..5 range check. -/
def parsePriority (s : String) : Except String (Option Int) :=
  if s = "" then .ok none
  else
    match parseIntStr s with
    | none => .error "invalid priority"
    | some p =>
      if p < -9223372036854775808 ∨ 9223372036854775807 < p then .error "invalid priority"
      else if p < 1 ∨ 5 < p then .error "priority out of range (1-5)"
      else .ok (some p)

/-- parseDeadline of the unnamed source variant: parse the fixed date layout,
then reject dates strictly before the rounded current time. -/
def parseDeadline (now : Int) (s : String) : Except String (Option Int) :=
  if s = "" then .ok none
  else
    match parseDate s with
    | none => .error "invalid deadline format, expected 2006-01-02"
    | some dl =>
      if dl < round24h now then .error "deadline is before today"
      else .ok (some dl)

/-- createTodo of the unnamed source variant: a missing deadline is an error. -/
def createTodo (summary details deadlineStr priorityStr : String) (now : Int) :
    Except String Todo :=
  if trimSpace summary = "" then .error "summary is required"
  else
    match parseDeadline now deadlineStr with
    | .error e => .error e
    | .ok none => .error "deadline is required"
    | .ok (some dl) =>
      match parsePriority priorityStr with
      | .error e => .error e
      | .ok op =>
        .ok { Priority := (match op with | some p => p | none => 1), Deadline := dl,
              AddedAt := now, DoneAt := 0, Done := false,
              Summary := trimSpace summary, Details := details }

end Variant

/-- The patch carrying only a done request of true. -/
def doneTruePatch : TodoPatch :=
  { Done := some true, Summary := none, Details := none, Priority := none, Deadline := none }

/-- The completion invariant of the data model: done exactly when the doneAt
timestamp is set (nonzero). -/
def doneInvariant (t : Todo) : Prop := t.Done = true ↔ t.DoneAt ≠ 0

/-- The display order demanded by the specification, as a relation between an
earlier and a later element of the displayed sequence. -/
def displayOrdered (a b : Todo) : Prop :=
  (a.Done = true → b.Done = true) ∧
  (a.Done = true → b.Done = true → a.DoneAt ≤ b.DoneAt) ∧
  (a.Done = false → b.Done = false →
    a.Deadline ≤ b.Deadline ∧
    (a.Deadline = b.Deadline → b.Priority ≤ a.Priority) ∧
    (a.Deadline = b.Deadline → a.Priority = b.Priority → a.AddedAt ≤ b.AddedAt))

/-- The empty patch: no field update is supplied. -/
def emptyPatch : TodoPatch :=
  { Done := none, Summary := none, Details := none, Priority := none, Deadline := none }

instance {ε α : Type} [DecidableEq ε] [DecidableEq α] : DecidableEq (Except ε α)
  | .error e, .error f => if h : e = f then .isTrue (by rw [h]) else .isFalse (by simp [h])
  | .error _, .ok _ => .isFalse (by simp)
  | .ok _, .error _ => .isFalse (by simp)
  | .ok a, .ok b => if h : a = b then .isTrue (by rw [h]) else .isFalse (by simp [h])

theorem patchTodos_fst (todos : List Todo) (m : String) (p : TodoPatch) (now : Int) :
    (patchTodos todos m p now).1 =
      todos.map (fun t => if t.Summary = m then applyPatch now p t else t) := by
  induction todos with
  | nil => rfl
  | cons t ts ih =>
    by_cases h : t.Summary = m <;> simp [patchTodos, h, ih]

theorem patchTodos_snd (todos : List Todo) (m : String) (p : TodoPatch) (now : Int) :
    (patchTodos todos m p now).2 = todos.countP (fun t => t.Summary == m) := by
  induction todos with
  | nil => rfl
  | cons t ts ih =>
    by_cases h : t.Summary = m <;> simp [patchTodos, h, ih, List.countP_cons]

theorem applyPatch_emptyPatch (now : Int) (t : Todo) : applyPatch now emptyPatch t = t := rfl

theorem applyPatch_done_doneAt (now : Int) (p : TodoPatch) (t : Todo) :
    (applyPatch now p t).Done = (match p.Done with
      | some true => !t.Done
      | _ => t.Done) ∧
    (applyPatch now p t).DoneAt = (match p.Done with
      | some true => if t.Done then 0 else now
      | _ => t.DoneAt) := by
  obtain ⟨pd, ps, pdt, pp, pdl⟩ := p
  cases pd with
  | none => cases ps <;> cases pdt <;> cases pp <;> cases pdl <;> simp [applyPatch]
  | some b =>
    cases b <;> cases ht : t.Done <;> cases ps <;> cases pdt <;> cases pp <;> cases pdl <;>
      simp [applyPatch, ht]

theorem deleteTodos_fst (todos : List Todo) (s : String) :
    (deleteTodos todos s).1 = todos.filter (fun t => t.Summary != s) := by
  induction todos with
  | nil => rfl
  | cons t ts ih =>
    by_cases h : t.Summary = s <;> simp [deleteTodos, h, ih, List.filter_cons]

theorem deleteTodos_snd (todos : List Todo) (s : String) :
    (deleteTodos todos s).2 = todos.countP (fun t => t.Summary == s) := by
  induction todos with
  | nil => rfl
  | cons t ts ih =>
    by_cases h : t.Summary = s <;> simp [deleteTodos, h, ih, List.countP_cons]

/-- C6: deleteTodos removes exactly the records whose summary equals the given
text under case-sensitive string equality, keeps the remaining records in
their relative order (the result is the subsequence of non-matching records),
and returns the removed count; with no match it returns the original
collection and the count 0, and no error is possible. -/
theorem deleteTodos_spec (todos : List Todo) (s : String) :
    (deleteTodos todos s).1 = todos.filter (fun t => t.Summary != s) ∧
    (deleteTodos todos s).2 = todos.countP (fun t => t.Summary == s) ∧
    ((∀ t ∈ todos, t.Summary ≠ s) →
      (deleteTodos todos s).1 = todos ∧ (deleteTodos todos s).2 = 0) := by
  refine ⟨deleteTodos_fst todos s, deleteTodos_snd todos s, fun h => ⟨?_, ?_⟩⟩
  · rw [deleteTodos_fst]
    apply List.filter_eq_self.mpr
    intro a ha
    simpa using h a ha
  · rw [deleteTodos_snd]
    apply List.countP_eq_zero.mpr
    intro a ha
    simpa using h a ha

/-- Witness for C6 at a concrete collection with no matching record. -/
theorem deleteTodos_spec_witness :
    (deleteTodos [{ Priority := 1, Deadline := 0, AddedAt := 0, DoneAt := 0, Done := false,
                    Summary := "buy milk", Details := "" }] "nonexistent").1 =
      [{ Priority := 1, Deadline := 0, AddedAt := 0, DoneAt := 0, Done := false,
         Summary := "buy milk", Details := "" }] ∧
    (deleteTodos [{ Priority := 1, Deadline := 0, AddedAt := 0, DoneAt := 0, Done := false,
                    Summary := "buy milk", Details := "" }] "nonexistent").2 = 0 :=
  (deleteTodos_spec _ "nonexistent").2.2 (by decide)

/-- C7: a patch updates every record whose summary equals the match text (the
result is the pointwise update of every matching record), the returned count
is the number of matching records, and the empty patch changes no record while
still counting the matches. -/
theorem patchTodos_updates_all_matches (todos : List Todo) (m : String) (p : TodoPatch)
    (now : Int) :
    (patchTodos todos m p now).2 = todos.countP (fun t => t.Summary == m) ∧
    (patchTodos todos m p now).1 =
      todos.map (fun t => if t.Summary = m then applyPatch now p t else t) ∧
    (p = emptyPatch → (patchTodos todos m p now).1 = todos) := by
  refine ⟨patchTodos_snd todos m p now, patchTodos_fst todos m p now, fun hp => ?_⟩
  subst hp
  rw [patchTodos_fst]
  simp [applyPatch_emptyPatch]

/-- Witness for C7: an empty patch on a two-record collection in which both
records match returns the count 2 and the unchanged collection. -/
theorem patchTodos_updates_all_matches_witness :
    (patchTodos [{ Priority := 1, Deadline := 0, AddedAt := 0, DoneAt := 0, Done := false,
                   Summary := "a", Details := "" },
                 { Priority := 2, Deadline := 5, AddedAt := 1, DoneAt := 0, Done := false,
                   Summary := "a", Details := "x" }] "a" emptyPatch 9).2 = 2 ∧
    (patchTodos [{ Priority := 1, Deadline := 0, AddedAt := 0, DoneAt := 0, Done := false,
                   Summary := "a", Details := "" },
                 { Priority := 2, Deadline := 5, AddedAt := 1, DoneAt := 0, Done := false,
                   Summary := "a", Details := "x" }] "a" emptyPatch 9).1 =
      [{ Priority := 1, Deadline := 0, AddedAt := 0, DoneAt := 0, Done := false,
         Summary := "a", Details := "" },
       { Priority := 2, Deadline := 5, AddedAt := 1, DoneAt := 0, Done := false,
         Summary := "a", Details := "x" }] := by
  constructor
  · rw [(patchTodos_updates_all_matches _ "a" emptyPatch 9).1]
    decide
  · exact (patchTodos_updates_all_matches _ "a" emptyPatch 9).2.2 rfl

/-- C10: patchTodos preserves the length and the relative order of the
collection, and every record whose summary differs from the match text is left
exactly as it was, at its original position. -/
theorem patchTodos_frame (todos : List Todo) (m : String) (p : TodoPatch) (now : Int) :
    (patchTodos todos m p now).1.length = todos.length ∧
    (∀ i : Nat, ∀ hi : i < todos.length, todos[i].Summary ≠ m →
      (patchTodos todos m p now).1[i]? = some todos[i]) := by
  constructor
  · rw [patchTodos_fst]
    exact List.length_map todos _
  · intro i hi hne
    rw [patchTodos_fst, List.getElem?_map, List.getElem?_eq_getElem hi]
    simp [hne]

/-- Witness for C10 at a one-record collection whose record does not match. -/
theorem patchTodos_frame_witness :
    (patchTodos [{ Priority := 1, Deadline := 0, AddedAt := 0, DoneAt := 0, Done := false,
                   Summary := "keep", Details := "" }] "other" doneTruePatch 3).1.length = 1 ∧
    (patchTodos [{ Priority := 1, Deadline := 0, AddedAt := 0, DoneAt := 0, Done := false,
                   Summary := "keep", Details := "" }] "other" doneTruePatch 3).1[0]? =
      some { Priority := 1, Deadline := 0, AddedAt := 0, DoneAt := 0, Done := false,
             Summary := "keep", Details := "" } :=
  ⟨(patchTodos_frame _ "other" doneTruePatch 3).1,
   (patchTodos_frame _ "other" doneTruePatch 3).2 0 (by decide) (by decide)⟩

theorem applyPatch_doneTrue_not_done (now : Int) (t : Todo) (ht : t.Done = false) :
    applyPatch now doneTruePatch t = { t with Done := true, DoneAt := now } := by
  simp [applyPatch, doneTruePatch, ht]

theorem applyPatch_doneTrue_done (now : Int) (t : Todo) (ht : t.Done = true) :
    applyPatch now doneTruePatch t = { t with Done := false, DoneAt := 0 } := by
  simp [applyPatch, doneTruePatch, ht]

theorem applyPatch_no_done_request (now : Int) (q : TodoPatch) (t : Todo)
    (hq : q.Done = none ∨ q.Done = some false) :
    (applyPatch now q t).Done = t.Done ∧ (applyPatch now q t).DoneAt = t.DoneAt := by
  rcases hs : q.Summary with _ | s <;> rcases hd : q.Details with _ | dd <;>
    rcases hp : q.Priority with _ | pp <;> rcases hl : q.Deadline with _ | dl <;>
    rcases hq with hq | hq <;> simp [applyPatch, hq, hs, hd, hp, hl]

theorem applyPatch_doneTrue_roundtrip (now now2 : Int) (t : Todo) (hd : t.Done = false)
    (ha : t.DoneAt = 0) :
    applyPatch now2 doneTruePatch { t with Done := true, DoneAt := now } = t := by
  rw [applyPatch_doneTrue_done now2 _ rfl]
  obtain ⟨tp, tdl, ta, tda, tdo, ts, tdet⟩ := t
  simp at hd ha
  simp [hd, ha]

/-- C4: on a matching not-done task, a patch carrying only a done request of
true sets done and stamps doneAt with the mutation time (nonzero); applying
the identical patch again restores the original done and doneAt values; and a
patch whose done field is absent or explicitly false changes neither done nor
doneAt of any record. -/
theorem patch_done_toggle (todos : List Todo) (m : String) (now now2 : Int)
    (i : Nat) (hi : i < todos.length)
    (hm : todos[i].Summary = m) (hnd : todos[i].Done = false) (hda : todos[i].DoneAt = 0)
    (hnow : now ≠ 0) :
    ((patchTodos todos m doneTruePatch now).1[i]? =
      some { todos[i] with Done := true, DoneAt := now } ∧
     ({ todos[i] with Done := true, DoneAt := now } : Todo).DoneAt ≠ 0) ∧
    (patchTodos (patchTodos todos m doneTruePatch now).1 m doneTruePatch now2).1[i]? =
      some todos[i] ∧
    (∀ q : TodoPatch, q.Done = none ∨ q.Done = some false →
      ∀ j : Nat, ∀ hj : j < todos.length, ∃ u,
        (patchTodos todos m q now).1[j]? = some u ∧
        u.Done = todos[j].Done ∧ u.DoneAt = todos[j].DoneAt) := by
  have hget1 : (patchTodos todos m doneTruePatch now).1[i]? =
      some { todos[i] with Done := true, DoneAt := now } := by
    rw [patchTodos_fst, List.getElem?_map, List.getElem?_eq_getElem hi]
    simp [hm, applyPatch_doneTrue_not_done now todos[i] hnd]
  refine ⟨⟨hget1, by simpa using hnow⟩, ?_, ?_⟩
  · rw [patchTodos_fst, List.getElem?_map, hget1]
    have hsum : ({ todos[i] with Done := true, DoneAt := now } : Todo).Summary = m := hm
    rw [Option.map_some', if_pos hsum, applyPatch_doneTrue_roundtrip now now2 todos[i] hnd hda]
  · intro q hq j hj
    rw [patchTodos_fst, List.getElem?_map, List.getElem?_eq_getElem hj]
    refine ⟨_, rfl, ?_⟩
    by_cases h : todos[j].Summary = m
    · simpa [h] using applyPatch_no_done_request now q todos[j] hq
    · simp [h]
/-- Witness for C4: a single matching not-done task, toggled at time 7 and
toggled back at time 9. -/
theorem patch_done_toggle_witness :
    ((patchTodos [{ Priority := 2, Deadline := 86400, AddedAt := 1, DoneAt := 0, Done := false,
                    Summary := "a", Details := "" }] "a" doneTruePatch 7).1[0]? =
      some { Priority := 2, Deadline := 86400, AddedAt := 1, DoneAt := 7, Done := true,
             Summary := "a", Details := "" } ∧
     ({ Priority := 2, Deadline := 86400, AddedAt := 1, DoneAt := 7, Done := true,
        Summary := "a", Details := "" } : Todo).DoneAt ≠ 0) ∧
    (patchTodos (patchTodos [{ Priority := 2, Deadline := 86400, AddedAt := 1, DoneAt := 0,
                               Done := false, Summary := "a", Details := "" }] "a"
                   doneTruePatch 7).1 "a" doneTruePatch 9).1[0]? =
      some { Priority := 2, Deadline := 86400, AddedAt := 1, DoneAt := 0, Done := false,
             Summary := "a", Details := "" } ∧
    (∀ q : TodoPatch, q.Done = none ∨ q.Done = some false →
      ∀ j : Nat, ∀ hj : j < ([{ Priority := 2, Deadline := 86400, AddedAt := 1, DoneAt := 0,
                                Done := false, Summary := "a", Details := "" }] :
                              List Todo).length, ∃ u,
        (patchTodos [{ Priority := 2, Deadline := 86400, AddedAt := 1, DoneAt := 0,
                       Done := false, Summary := "a", Details := "" }] "a" q 7).1[j]? = some u ∧
        u.Done = ([{ Priority := 2, Deadline := 86400, AddedAt := 1, DoneAt := 0, Done := false,
                     Summary := "a", Details := "" }] : List Todo)[j].Done ∧
        u.DoneAt = ([{ Priority := 2, Deadline := 86400, AddedAt := 1, DoneAt := 0, Done := false,
                       Summary := "a", Details := "" }] : List Todo)[j].DoneAt) :=
  patch_done_toggle _ "a" 7 9 0 (by decide) (by decide) (by decide) (by decide) (by decide)

theorem applyPatch_preserves_doneInvariant (now : Int) (hnow : now ≠ 0) (q : TodoPatch)
    (t : Todo) (h : doneInvariant t) : doneInvariant (applyPatch now q t) := by
  unfold doneInvariant at h ⊢
  rcases hq : q.Done with _ | b
  · have hk := applyPatch_no_done_request now q t (Or.inl hq)
    rw [hk.1, hk.2]
    exact h
  · cases b
    · have hk := applyPatch_no_done_request now q t (Or.inr hq)
      rw [hk.1, hk.2]
      exact h
    · rcases hs : q.Summary with _ | s <;> rcases hd2 : q.Details with _ | dd <;>
        rcases hp : q.Priority with _ | pp <;> rcases hl : q.Deadline with _ | dl <;>
        cases htd : t.Done <;> simp [applyPatch, hq, hs, hd2, hp, hl, htd, hnow]

theorem addTodoOperation_ok_inv (todos : List Todo) (summary details dstr pstr : String)
    (now : Int) (r : List Todo) (msg : String)
    (h : addTodoOperation todos summary details dstr pstr now = .ok (r, msg)) :
    ∃ p dl, r = todos ++ [{ Priority := p, Deadline := dl, AddedAt := now, DoneAt := 0,
                            Done := false, Summary := trimSpace summary,
                            Details := details }] := by
  unfold addTodoOperation at h
  split at h
  · simp at h
  · rcases hdl : stringToDeadline dstr with e | od
    · simp [hdl] at h
    · rcases od with _ | d
      · rcases hpr : stringToPriority pstr with e | op
        · simp [hdl, hpr] at h
        · rcases op with _ | pv
          · simp only [hdl, hpr, Except.ok.injEq, Prod.mk.injEq] at h
            exact ⟨_, _, h.1.symm⟩
          · simp only [hdl, hpr] at h
            split at h
            · simp at h
            · simp only [Except.ok.injEq, Prod.mk.injEq] at h
              exact ⟨_, _, h.1.symm⟩
      · simp only [hdl] at h
        split at h
        · simp at h
        · rcases hpr : stringToPriority pstr with e | op
          · simp [hpr] at h
          · rcases op with _ | pv
            · simp only [hpr, Except.ok.injEq, Prod.mk.injEq] at h
              exact ⟨_, _, h.1.symm⟩
            · simp only [hpr] at h
              split at h
              · simp at h
              · simp only [Except.ok.injEq, Prod.mk.injEq] at h
                exact ⟨_, _, h.1.symm⟩
/-- C8: starting from a collection whose tasks all satisfy the completion
invariant (done exactly when doneAt is nonzero), a successful create appends a
task and leaves every task of the result satisfying the invariant, and a
successful patch operation leaves every task of the resulting collection
satisfying the invariant. -/
theorem mutation_preserves_doneInvariant (todos : List Todo) (now : Int)
    (hinv : ∀ t ∈ todos, doneInvariant t) (hnow : now ≠ 0) :
    (∀ summary details dstr pstr r msg,
      addTodoOperation todos summary details dstr pstr now = .ok (r, msg) →
      ∀ t ∈ r, doneInvariant t) ∧
    (∀ m patch r n, setTodoOperation todos m patch now = (r, .ok n) →
      ∀ t ∈ r, doneInvariant t) := by
  constructor
  · intro summary details dstr pstr r msg h t ht
    obtain ⟨p, dl, hr⟩ := addTodoOperation_ok_inv todos summary details dstr pstr now r msg h
    subst hr
    rcases List.mem_append.mp ht with hmem | hmem
    · exact hinv t hmem
    · rw [List.mem_singleton.mp hmem]
      unfold doneInvariant
      simp
  · intro m patch r n h t ht
    unfold setTodoOperation at h
    split at h
    · simp at h
    · split at h
      · simp at h
      · split at h
        · simp at h
        · simp only [Prod.mk.injEq] at h
          obtain ⟨hr, _⟩ := h
          subst hr
          rw [patchTodos_fst] at ht
          rcases List.mem_map.mp ht with ⟨u, hu, hut⟩
          subst hut
          by_cases hs : u.Summary = m
          · rw [if_pos hs]
            exact applyPatch_preserves_doneInvariant now hnow patch u (hinv u hu)
          · rw [if_neg hs]
            exact hinv u hu

/-- Witness for C8: the task produced by a successful create at time 5 with an
absent deadline and an absent priority satisfies the completion invariant. -/
theorem mutation_preserves_doneInvariant_witness :
    doneInvariant { Priority := 1, Deadline := 0, AddedAt := 5, DoneAt := 0, Done := false,
                    Summary := "a", Details := "" } :=
  (mutation_preserves_doneInvariant [] 5 (by simp) (by decide)).1 "a" "" "" ""
    [{ Priority := 1, Deadline := 0, AddedAt := 5, DoneAt := 0, Done := false,
       Summary := "a", Details := "" }] "todo added" (by decide)
    { Priority := 1, Deadline := 0, AddedAt := 5, DoneAt := 0, Done := false,
      Summary := "a", Details := "" } (by decide)

theorem deadline_before_today_invalid (now d : Int) (h : dayOfTime d < dayOfTime now) :
    isValidDeadline now d = false := by
  simp only [isValidDeadline, round24h, dayOfTime] at *
  split_ifs <;> simp only [decide_eq_false_iff_not, not_le] <;> omega

/-- C3: a patch carrying an out-of-range priority, a deadline on an earlier
calendar day than the current one, or a summary that is empty after trimming
makes setTodoOperation fail with an error and leave the collection exactly as
it was: no record is touched. -/
theorem setTodoOperation_validation_atomic (todos : List Todo) (m : String)
    (patch : TodoPatch) (now : Int)
    (h : (∃ p, patch.Priority = some p ∧ ¬(1 ≤ p ∧ p ≤ 5)) ∨
         (∃ d, patch.Deadline = some d ∧ dayOfTime d < dayOfTime now) ∨
         (∃ s, patch.Summary = some s ∧ trimSpace s = "")) :
    ∃ e, setTodoOperation todos m patch now = (todos, .error e) := by
  cases hg1 : (match patch.Priority with | some p => !isValidPriority p | none => false) with
  | true =>
    refine ⟨"priority out of range (1-5)", ?_⟩
    unfold setTodoOperation
    simp [hg1]
  | false =>
    cases hg2 : (match patch.Deadline with | some d => !isValidDeadline now d | none => false) with
    | true =>
      refine ⟨"deadline is before today", ?_⟩
      unfold setTodoOperation
      simp [hg1, hg2]
    | false =>
      cases hg3 : (match patch.Summary with
                   | some s => decide (trimSpace s = "") | none => false) with
      | true =>
        refine ⟨"summary cannot be empty", ?_⟩
        unfold setTodoOperation
        simp [hg1, hg2, hg3]
      | false =>
        exfalso
        rcases h with ⟨p, hp, hpv⟩ | ⟨d, hd, hdv⟩ | ⟨s, hs, hsv⟩
        · rw [hp] at hg1
          simp at hg1
          exact hpv (by simpa [isValidPriority] using hg1)
        · rw [hd] at hg2
          simp at hg2
          rw [deadline_before_today_invalid now d hdv] at hg2
          exact absurd hg2 (by simp)
        · rw [hs] at hg3
          simp at hg3
          exact hg3 hsv

/-- Witness for C3: a patch requesting priority 9 fails and the one-record
collection is returned unmodified. -/
theorem setTodoOperation_validation_atomic_witness :
    ∃ e, setTodoOperation
        [{ Priority := 1, Deadline := 0, AddedAt := 0, DoneAt := 0, Done := false,
           Summary := "buy milk", Details := "" }] "buy milk"
        { Done := none, Summary := none, Details := none, Priority := some 9,
          Deadline := none } 0 =
      ([{ Priority := 1, Deadline := 0, AddedAt := 0, DoneAt := 0, Done := false,
          Summary := "buy milk", Details := "" }], .error e) :=
  setTodoOperation_validation_atomic _ "buy milk"
    { Done := none, Summary := none, Details := none, Priority := some 9, Deadline := none } 0
    (Or.inl ⟨9, rfl, by decide⟩)

theorem lessTodo_eq_true_iff (a b : Todo) :
    lessTodo a b = true ↔
      (a.Done = false ∧ b.Done = true) ∨
      (a.Done = true ∧ b.Done = true ∧ a.DoneAt < b.DoneAt) ∨
      (a.Done = false ∧ b.Done = false ∧
        (a.Deadline < b.Deadline ∨
         (a.Deadline = b.Deadline ∧
           (b.Priority < a.Priority ∨
            (a.Priority = b.Priority ∧ a.AddedAt < b.AddedAt))))) := by
  cases ha : a.Done <;> cases hb : b.Done <;>
    simp [lessTodo, ha, hb] <;> split_ifs <;> simp_all

theorem lessTodo_trans_neg (a b c : Todo) (hab : lessTodo b a = false)
    (hbc : lessTodo c b = false) : lessTodo c a = false := by
  rw [Bool.eq_false_iff, Ne, lessTodo_eq_true_iff] at hab hbc ⊢
  cases ha : a.Done <;> cases hb : b.Done <;> cases hc : c.Done <;> simp_all <;> omega

theorem lessTodo_total_neg (a b : Todo) : lessTodo b a = false ∨ lessTodo a b = false := by
  by_contra hno
  push_neg at hno
  obtain ⟨h1, h2⟩ := hno
  rw [Bool.ne_false_iff, lessTodo_eq_true_iff] at h1 h2
  cases ha : a.Done <;> cases hb : b.Done <;> simp_all <;> omega

theorem lessTodo_false_displayOrdered (a b : Todo) (h : lessTodo b a = false) :
    displayOrdered a b := by
  rw [Bool.eq_false_iff, Ne, lessTodo_eq_true_iff] at h
  unfold displayOrdered
  cases ha : a.Done <;> cases hb : b.Done <;> simp_all

/-- C5: sortTodos returns a new sequence that is a permutation of its input
(the input itself is not modified, the function being a pure function of it),
every adjacent-or-later pair of the output is in display order (not-done
before done; among done, earlier doneAt first; among not-done, earlier
deadline first, then higher priority, then earlier addedAt), and on the
concrete quadruple A(not done, deadline 2024-01-01, priority 3), B(not done,
deadline 2024-01-01, priority 5), C(done, doneAt 2023-01-01), D(done, doneAt
2023-06-01) the output order is B, A, C, D. -/
theorem sortTodos_spec (todos : List Todo) :
    (sortTodos todos).Perm todos ∧
    (sortTodos todos).Pairwise displayOrdered ∧
    sortTodos
      [{ Priority := 3, Deadline := 86400 * daysSinceYear1 2024 1 1, AddedAt := 1, DoneAt := 0,
         Done := false, Summary := "A", Details := "" },
       { Priority := 5, Deadline := 86400 * daysSinceYear1 2024 1 1, AddedAt := 2, DoneAt := 0,
         Done := false, Summary := "B", Details := "" },
       { Priority := 1, Deadline := 86400 * daysSinceYear1 2024 1 1, AddedAt := 3,
         DoneAt := 86400 * daysSinceYear1 2023 1 1, Done := true, Summary := "C", Details := "" },
       { Priority := 1, Deadline := 86400 * daysSinceYear1 2024 1 1, AddedAt := 4,
         DoneAt := 86400 * daysSinceYear1 2023 6 1, Done := true, Summary := "D",
         Details := "" }] =
      [{ Priority := 5, Deadline := 86400 * daysSinceYear1 2024 1 1, AddedAt := 2, DoneAt := 0,
         Done := false, Summary := "B", Details := "" },
       { Priority := 3, Deadline := 86400 * daysSinceYear1 2024 1 1, AddedAt := 1, DoneAt := 0,
         Done := false, Summary := "A", Details := "" },
       { Priority := 1, Deadline := 86400 * daysSinceYear1 2024 1 1, AddedAt := 3,
         DoneAt := 86400 * daysSinceYear1 2023 1 1, Done := true, Summary := "C", Details := "" },
       { Priority := 1, Deadline := 86400 * daysSinceYear1 2024 1 1, AddedAt := 4,
         DoneAt := 86400 * daysSinceYear1 2023 6 1, Done := true, Summary := "D",
         Details := "" }] := by
  refine ⟨List.perm_insertionSort _ todos, ?_, by decide⟩
  have hs := @List.sorted_insertionSort Todo (fun a b => lessTodo b a = false) _
    ⟨fun a b => lessTodo_total_neg a b⟩ ⟨fun a b c => lessTodo_trans_neg a b c⟩ todos
  exact hs.imp (fun h => lessTodo_false_displayOrdered _ _ h)

/-- C1: demonstration that isValidDeadline is not a calendar-day comparison.
At 13:00 UTC of 2024-06-15 the rounded current time is the midnight opening
2024-06-16, so the parsed deadline 2024-06-15 — the same calendar day as the
clock reading — is rejected, although the claim requires it to be accepted. -/
theorem isValidDeadline_rejects_same_day :
    parseDate "2024-06-15" = some 63854006400 ∧
    dayOfTime (63854006400 + 46800) = dayOfTime 63854006400 ∧
    isValidDeadline (63854006400 + 46800) 63854006400 = false := by decide

/-- C2 counterexample: in src/main.go a create call with an absent deadline
text and otherwise valid inputs does not fail; it produces a task whose
deadline is the rounded current time. -/
theorem addTodo_absent_deadline_counterexample :
    addTodoOperation [] "buy milk" "" "" "" 1000 =
      .ok ([{ Priority := 1, Deadline := 0, AddedAt := 1000, DoneAt := 0, Done := false,
              Summary := "buy milk", Details := "" }], "todo added") := by decide

/-- C2 amended: with an absent deadline and a nonempty trimmed summary, the
src/main.go create operation succeeds and silently defaults the deadline to
the current time rounded to the nearest day boundary, while the variant
createTodo of the unnamed source part fails with a deadline-required error. -/
theorem addTodo_absent_deadline_amended (todos : List Todo) (summary details : String)
    (now : Int) (h : trimSpace summary ≠ "") :
    addTodoOperation todos summary details "" "" now =
      .ok (todos ++ [{ Priority := 1, Deadline := round24h now, AddedAt := now, DoneAt := 0,
                       Done := false, Summary := trimSpace summary, Details := details }],
           "todo added") ∧
    Variant.createTodo summary details "" "" now = .error "deadline is required" := by
  constructor
  · unfold addTodoOperation
    rw [if_neg h]
    rfl
  · unfold Variant.createTodo
    rw [if_neg h]
    rfl

/-- Witness for the amended C2 at a concrete creation call. -/
theorem addTodo_absent_deadline_amended_witness :
    addTodoOperation [] "buy milk" "x" "" "" 1000 =
      .ok ([] ++ [{ Priority := 1, Deadline := round24h 1000, AddedAt := 1000, DoneAt := 0,
                    Done := false, Summary := trimSpace "buy milk", Details := "x" }],
           "todo added") ∧
    Variant.createTodo "buy milk" "x" "" "" 1000 = .error "deadline is required" :=
  addTodo_absent_deadline_amended [] "buy milk" "x" 1000 (by decide)

/-- C9 counterexample: the text 200 is an integer, yet parsing it fails,
because strconv.ParseInt is called with a bit size of 8 and 200 is outside the
signed 8 bit range. -/
theorem stringToPriority_int8_range_counterexample :
    parseIntStr "200" = some 200 ∧
    stringToPriority "200" = .error "invalid priority format" := by decide

/-- C9 amended: empty text yields no value and no error; integer text within
the signed 8 bit range yields exactly that value with no error (no 1..5 range
restriction at parse time); non-integer text and integer text outside the
signed 8 bit range yield an invalid-format error. -/
theorem stringToPriority_amended :
    stringToPriority "" = .ok none ∧
    (∀ s n, parseIntStr s = some n → -128 ≤ n → n ≤ 127 →
      stringToPriority s = .ok (some n)) ∧
    (∀ s, s ≠ "" → parseIntStr s = none →
      stringToPriority s = .error "invalid priority format") ∧
    (∀ s n, parseIntStr s = some n → (n < -128 ∨ 127 < n) →
      stringToPriority s = .error "invalid priority format") := by
  refine ⟨rfl, ?_, ?_, ?_⟩
  · intro s n hp hlo hhi
    have hs : s ≠ "" := by
      intro he
      subst he
      simp [parseIntStr, digitsToNat] at hp
    simp only [stringToPriority, if_neg hs, hp]
    rw [if_neg (by omega : ¬(n < -128 ∨ 127 < n))]
  · intro s hs hp
    simp only [stringToPriority, if_neg hs, hp]
  · intro s n hp hrange
    have hs : s ≠ "" := by
      intro he
      subst he
      simp [parseIntStr, digitsToNat] at hp
    simp only [stringToPriority, if_neg hs, hp]
    rw [if_pos hrange]

/-- Witness for the amended C9: a value outside 1..5 but inside the 8 bit
range parses; non-integer text and an out-of-range integer fail. -/
theorem stringToPriority_amended_witness :
    stringToPriority "9" = .ok (some 9) ∧
    stringToPriority "abc" = .error "invalid priority format" ∧
    stringToPriority "-300" = .error "invalid priority format" :=
  ⟨stringToPriority_amended.2.1 "9" 9 (by decide) (by decide) (by decide),
   stringToPriority_amended.2.2.1 "abc" (by decide) (by decide),
   stringToPriority_amended.2.2.2 "-300" (-300) (by decide) (by decide)⟩

end GoTodo
